import Mathlib

/-!
Verification of the Clarify Data Bridge telemetry pipeline
(`custom_components/clarify_data_bridge`): a shallow embedding in Lean 4 of
the retry manager, buffer strategy manager, data validator and data
coordinator, together with proofs and refutations of the behavioural
properties stated in the project's specification.

Modelling conventions:
* Python `float` quantities that the claims reason about arithmetically
  (delays, values, rates) are modelled as `ℚ`; timestamps (`datetime`
  instants) are `ℤ` in the buffer/validator layer and `ℚ` in the retry
  layer (where fractional backoff delays are added to instants);
  `timedelta` arguments are the corresponding number of seconds.
* Python dictionaries are association lists; insertion with a duplicate
  key overwrites, which is modelled by a last-occurrence-wins lookup.
* Code that can raise an exception is embedded with an explicit error
  outcome (`Except`, or an `Option String` exception channel when the
  partially mutated state matters); code that cannot raise is a total
  function.
* Logging calls are ignored; they do not change any modelled state.
-/

/-- Python `int(x)` applied to a float: truncation toward zero. -/
def pyInt (q : ℚ) : ℤ := if 0 ≤ q then ⌊q⌋ else ⌈q⌉

/-- Lookup in a Python dict that was built by inserting the key/value pairs
of `l` in order: a later pair with the same key overwrites an earlier one,
so the *last* matching pair wins. -/
def pyDictGet {α β : Type} [DecidableEq α] : List (α × β) → α → Option β
  | [], _ => none
  | p :: rest, k =>
    match pyDictGet rest k with
    | some v => some v
    | none => if p.1 = k then some p.2 else none

/-- Python `defaultdict(list)` update `d[k].extend(pts)`: extend the list at
an existing key, or create the key. -/
def pyDictExtend {β : Type} (buf : List (String × List β)) (k : String)
    (pts : List β) : List (String × List β) :=
  if buf.any (fun p => p.1 = k) then
    buf.map (fun p => if p.1 = k then (p.1, p.2 ++ pts) else p)
  else
    buf ++ [(k, pts)]

/-! ## Retry manager (`retry_manager.py`) -/

/-- `RetryReason` enum (retry_manager.py lines 17-25). -/
inductive RetryReason
  | network_error
  | timeout
  | rate_limit
  | server_error
  | authentication_error
  | unknown
deriving DecidableEq, Repr

/-- `RetryEntry` dataclass (retry_manager.py lines 28-39).  Entries are only
ever placed in the queue by `add_retry_entry`, which always fills
`last_attempt_time` and `next_retry_time`, so those fields are modelled as
plain instants.  The success `callback` performs no retry-manager state
change (its exceptions are swallowed), so it is not part of the state. -/
structure RetryEntry (α : Type) where
  data : α
  attempt : ℕ
  max_attempts : ℕ
  last_attempt_time : ℚ
  next_retry_time : ℚ
  reason : RetryReason
  error_message : String

/-- `RetryStatistics` dataclass (retry_manager.py lines 42-52). -/
structure RetryStatistics where
  total_retries : ℕ
  successful_retries : ℕ
  failed_retries : ℕ
  abandoned_entries : ℕ
  retry_reasons : RetryReason → ℕ
  current_queue_size : ℕ
  max_queue_size : ℕ

/-- The all-zero statistics record a fresh manager starts with. -/
def RetryStatistics.init : RetryStatistics :=
  ⟨0, 0, 0, 0, fun _ => 0, 0, 0⟩

/-- State of an `ExponentialBackoffRetryManager` (retry_manager.py lines
66-93): configuration plus the FIFO retry queue (head = front/oldest) and
statistics. -/
structure RetryManagerState (α : Type) where
  max_attempts : ℕ
  base_delay : ℚ
  max_delay : ℚ
  max_queue_size : ℕ
  retry_queue : List (RetryEntry α)
  stats : RetryStatistics

/-- A freshly initialised manager with the given configuration. -/
def RetryManagerState.init (α : Type) (max_attempts : ℕ) (base_delay max_delay : ℚ)
    (max_queue_size : ℕ) : RetryManagerState α :=
  ⟨max_attempts, base_delay, max_delay, max_queue_size, [], RetryStatistics.init⟩

/-- `ExponentialBackoffRetryManager.calculate_backoff_delay`
(retry_manager.py lines 102-140): exponential backoff `base_delay * 2^attempt`,
a reason-specific multiplier (rate limit x3, server error x1.5, authentication
error x2), capped at `max_delay`. -/
def calculate_backoff_delay (base_delay max_delay : ℚ) (attempt : ℕ)
    (reason : RetryReason) : ℚ :=
  let delay := base_delay * 2 ^ attempt
  let delay :=
    match reason with
    | .rate_limit => delay * 3
    | .server_error => delay * (3 / 2)  -- 1.5
    | .authentication_error => delay * 2
    | _ => delay
  min delay max_delay

/-- The reason-specific multiplier table exactly as the specification words
it (spec section 4.4): "rate-limit x3, server-error x1.5,
authentication-error x2, network/timeout/unknown x1".  Stated separately
from `calculate_backoff_delay` so the code can be proved to refine the
spec's closed formula `min(max_delay, base_delay * 2^attempt * multiplier)`. -/
def specBackoffMultiplier : RetryReason → ℚ
  | .rate_limit => 3
  | .server_error => 3 / 2
  | .authentication_error => 2
  | _ => 1

/-- The entry constructed by `add_retry_entry` (retry_manager.py lines
174-187): attempt 0, the manager's `max_attempts`, both time fields set,
with `next_retry_time = now + calculate_backoff_delay(0, reason)`. -/
def newRetryEntry {α : Type} (s : RetryManagerState α) (now : ℚ) (data : α)
    (reason : RetryReason) (error_message : String) : RetryEntry α :=
  { data := data
    attempt := 0
    max_attempts := s.max_attempts
    last_attempt_time := now
    next_retry_time := now + calculate_backoff_delay s.base_delay s.max_delay 0 reason
    reason := reason
    error_message := error_message }

/-- `ExponentialBackoffRetryManager.add_retry_entry` (retry_manager.py lines
142-208).  When the queue already holds at least `max_queue_size` entries the
oldest entry (`popleft`) is dropped first and counted as abandoned; note that
`deque().popleft()` on an *empty* deque raises `IndexError`, which can only
happen here when `max_queue_size = 0`.  The new entry is appended at the
back, statistics are updated, and the method returns `True`. -/
def add_retry_entry {α : Type} (s : RetryManagerState α) (now : ℚ) (data : α)
    (reason : RetryReason) (error_message : String) :
    Except String (Bool × RetryManagerState α) :=
  let afterEviction : Except String (List (RetryEntry α) × RetryStatistics) :=
    if s.retry_queue.length ≥ s.max_queue_size then
      match s.retry_queue with
      | [] => .error "IndexError: pop from an empty deque"
      | _oldest :: rest =>
        .ok (rest, { s.stats with abandoned_entries := s.stats.abandoned_entries + 1 })
    else
      .ok (s.retry_queue, s.stats)
  afterEviction.map
  (fun (queue_stats : List (RetryEntry α) × RetryStatistics) =>
    let queue := queue_stats.1 ++ [newRetryEntry s now data reason error_message]
    let stats := queue_stats.2
    let stats := { stats with
      total_retries := stats.total_retries + 1
      retry_reasons := fun r =>
        if r = reason then stats.retry_reasons r + 1 else stats.retry_reasons r
      current_queue_size := queue.length }
    let stats := { stats with
      max_queue_size := max stats.max_queue_size stats.current_queue_size }
    (true, { s with retry_queue := queue, stats := stats }))

/-- The `{processed, successful, failed, requeued}` result dictionary of
`process_retry_queue`. -/
structure ProcessResult where
  processed : ℕ
  successful : ℕ
  failed : ℕ
  requeued : ℕ
deriving DecidableEq, Repr

/-- Body of the `for entry in entries_to_process` loop of
`process_retry_queue` (retry_manager.py lines 255-335) for one ready entry.
The transmission callback is a pure function `send : α → Bool`, so the
`except` arm of the source (an exception escaping `send_callback`) is
unreachable in the embedding.  On success the entry's optional callback is
invoked in the source, with any exception swallowed — no manager state
changes.  On failure the attempt counter is incremented and the entry is
either requeued with a recomputed `next_retry_time` or abandoned. -/
def processEntry {α : Type} (now : ℚ) (send : α → Bool)
    (acc : RetryManagerState α × ProcessResult) (e : RetryEntry α) :
    RetryManagerState α × ProcessResult :=
  let s := acc.1
  let res := { acc.2 with processed := acc.2.processed + 1 }
  if send e.data then
    ({ s with stats :=
        { s.stats with successful_retries := s.stats.successful_retries + 1 } },
     { res with successful := res.successful + 1 })
  else
    let e := { e with attempt := e.attempt + 1 }
    if e.attempt < e.max_attempts then
      let delay := calculate_backoff_delay s.base_delay s.max_delay e.attempt e.reason
      let e := { e with next_retry_time := now + delay, last_attempt_time := now }
      ({ s with retry_queue := s.retry_queue ++ [e] },
       { res with requeued := res.requeued + 1 })
    else
      ({ s with stats :=
          { s.stats with
            failed_retries := s.stats.failed_retries + 1
            abandoned_entries := s.stats.abandoned_entries + 1 } },
       { res with failed := res.failed + 1 })

/-- `ExponentialBackoffRetryManager.process_retry_queue` (retry_manager.py
lines 210-356).  An empty queue returns the zero result immediately.
Otherwise the popleft loop partitions the queue, preserving order, into the
entries that are ready (`next_retry_time <= now`) and those that must wait;
the waiting entries are put back, the ready ones are processed in order, and
finally `current_queue_size` is refreshed. -/
def process_retry_queue {α : Type} (s : RetryManagerState α) (now : ℚ)
    (send : α → Bool) : RetryManagerState α × ProcessResult :=
  if s.retry_queue.isEmpty then
    (s, ⟨0, 0, 0, 0⟩)
  else
    let entries_to_process := s.retry_queue.filter (fun e => e.next_retry_time ≤ now)
    let entries_to_keep := s.retry_queue.filter (fun e => ¬ e.next_retry_time ≤ now)
    let s := { s with retry_queue := entries_to_keep }
    let acc := entries_to_process.foldl (processEntry now send) (s, ⟨0, 0, 0, 0⟩)
    ({ acc.1 with stats :=
        { acc.1.stats with current_queue_size := acc.1.retry_queue.length } },
     acc.2)

/-! ## Buffer strategy manager (`buffer_strategy.py`) -/

/-- Modelled from the spec: the `DataPriority` enum.  `buffer_strategy.py`
imports `DataPriority` from `entity_selector.py`, but no definition of it
appears anywhere in the source tree; spec section 3 describes it as an
ordered enum with `HIGH > MEDIUM > LOW`. -/
inductive DataPriority
  | low
  | medium
  | high
deriving DecidableEq, Repr

/-- Modelled from the spec: the numeric `.value` of each `DataPriority`
member, ordered `HIGH > MEDIUM > LOW`; used only in the ordering comparison
`entry.priority.value >= priority_threshold.value`. -/
def DataPriority.val : DataPriority → ℕ
  | .low => 1
  | .medium => 2
  | .high => 3

/-- `BufferStrategy` enum (buffer_strategy.py lines 18-25). -/
inductive BufferStrategy
  | time_based
  | size_based
  | priority_based
  | hybrid
  | adaptive
deriving DecidableEq, Repr

/-- `FlushTrigger` enum (buffer_strategy.py lines 28-36). -/
inductive FlushTrigger
  | time_interval
  | size_limit
  | priority
  | manual
  | shutdown
  | adaptive
deriving DecidableEq, Repr

/-- `BufferEntry` dataclass (buffer_strategy.py lines 39-48). -/
structure BufferEntry where
  input_id : String
  value : ℚ
  timestamp : ℤ
  priority : DataPriority := .low
  entity_id : Option String := none
  device_class : Option String := none

/-- `BufferMetrics` dataclass (buffer_strategy.py lines 51-62). -/
structure BufferMetrics where
  total_entries : ℕ
  flushes : ℕ
  flush_triggers : FlushTrigger → ℕ
  avg_buffer_size : ℚ
  max_buffer_size : ℕ
  data_rate : ℚ
  last_flush_time : Option ℤ
  last_flush_size : ℕ

/-- The all-zero metrics record a fresh manager starts with. -/
def BufferMetrics.init : BufferMetrics :=
  ⟨0, 0, fun _ => 0, 0, 0, 0, none, 0⟩

/-- State of a `BufferStrategyManager` (buffer_strategy.py lines 76-126):
configuration, the three priority-segregated buffers, flush timing, metrics
and the adaptive-strategy state.  (`_buffer_start_time` is assigned in
`__init__` and never read, so it is not modelled.) -/
structure BufferStrategyManagerState where
  strategy : BufferStrategy
  time_interval : ℤ
  size_limit : ℕ
  priority_immediate : Bool
  priority_threshold : DataPriority
  adaptive_min_interval : ℤ
  adaptive_max_interval : ℤ
  high_priority_buffer : List BufferEntry
  medium_priority_buffer : List BufferEntry
  low_priority_buffer : List BufferEntry
  last_flush_time : ℤ
  metrics : BufferMetrics
  entry_timestamps : List ℤ
  current_interval : ℤ

/-- A freshly initialised `BufferStrategyManager` with the source's default
keyword arguments (buffer_strategy.py lines 76-126). -/
def BufferStrategyManagerState.init (strategy : BufferStrategy)
    (time_interval : ℤ := 300) (size_limit : ℕ := 100) (now : ℤ := 0)
    (priority_immediate : Bool := true)
    (priority_threshold : DataPriority := .high)
    (adaptive_min_interval : ℤ := 60) (adaptive_max_interval : ℤ := 600) :
    BufferStrategyManagerState :=
  ⟨strategy, time_interval, size_limit, priority_immediate, priority_threshold,
   adaptive_min_interval, adaptive_max_interval, [], [], [], now,
   BufferMetrics.init, [], time_interval⟩

/-- `BufferStrategyManager.get_total_buffer_size` (buffer_strategy.py lines
355-361). -/
def get_total_buffer_size (s : BufferStrategyManagerState) : ℕ :=
  s.high_priority_buffer.length + s.medium_priority_buffer.length +
    s.low_priority_buffer.length

/-- `BufferStrategyManager.get_flush_data` (buffer_strategy.py lines
296-353).  For a `Priority` trigger only the high-priority buffer is
snapshotted and cleared; for every other trigger all three buffers are.  A
priority key appears in the returned dict only when its buffer was
nonempty (`if self._high_priority_buffer:` etc.).  Afterwards the flush
metrics and `_last_flush_time` are updated. -/
def get_flush_data (s : BufferStrategyManagerState) (trigger : FlushTrigger)
    (now : ℤ) : List (String × List BufferEntry) × BufferStrategyManagerState :=
  let data : List (String × List BufferEntry) :=
    if trigger = .priority then
      (if s.high_priority_buffer.isEmpty then [] else [("high", s.high_priority_buffer)])
    else
      (if s.high_priority_buffer.isEmpty then [] else [("high", s.high_priority_buffer)]) ++
      (if s.medium_priority_buffer.isEmpty then [] else [("medium", s.medium_priority_buffer)]) ++
      (if s.low_priority_buffer.isEmpty then [] else [("low", s.low_priority_buffer)])
  let s :=
    if trigger = .priority then
      { s with high_priority_buffer := [] }
    else
      { s with
        high_priority_buffer := []
        medium_priority_buffer := []
        low_priority_buffer := [] }
  let total_flushed := (data.map (fun p => p.2.length)).sum
  let m : BufferMetrics := s.metrics
  let m : BufferMetrics := { m with
    flushes := m.flushes + 1
    flush_triggers := fun t =>
      if t = trigger then m.flush_triggers t + 1 else m.flush_triggers t
    last_flush_time := some now
    last_flush_size := total_flushed }
  let m :=
    if m.flushes > 0 then
      { m with avg_buffer_size :=
          (m.avg_buffer_size * ((m.flushes : ℚ) - 1) + (total_flushed : ℚ)) /
            (m.flushes : ℚ) }
    else m
  (data, { s with metrics := m, last_flush_time := now })

/-- The effective-interval computation of the Adaptive policy
(`BufferStrategyManager._check_adaptive`, buffer_strategy.py lines 262-275):
given the measured `data_rate` (entries per second, computed as
`len(self._entry_timestamps) / time_span`), the new `_current_interval` is
the minimum interval for rates above 1/sec, the maximum interval for rates
below 0.1/sec, and otherwise
`int(max_interval - ((rate - 0.1) / 0.9) * (max_interval - min_interval))`,
where Python's `int()` truncates toward zero (`pyInt`). -/
def adaptive_effective_interval (adaptive_min_interval adaptive_max_interval : ℤ)
    (data_rate : ℚ) : ℤ :=
  if data_rate > 1 then adaptive_min_interval
  else if data_rate < 1 / 10 then adaptive_max_interval
  else
    let rate_factor := (data_rate - 1 / 10) / (9 / 10)
    let interval_range : ℤ := adaptive_max_interval - adaptive_min_interval
    pyInt ((adaptive_max_interval : ℚ) - rate_factor * (interval_range : ℚ))

/-! ## Batch assembly (`coordinator.py`, `_build_dataframe`) -/

/-- The pyclarify `DataFrame` structure as the coordinator fills it: a list
of timestamps and, per input id, a value series positionally aligned with
`times`.  The source converts each timestamp to an ISO-8601 string just
before constructing the `DataFrame`; `isoformat` on UTC datetimes is
injective and strictly order-preserving, so timestamps are modelled by the
instants themselves. -/
structure ClarifyDataFrame where
  times : List ℤ
  series : List (String × List (Option ℚ))

/-- The `all_timestamps` set of `_build_dataframe` (coordinator.py lines
324-328): every timestamp occurring in any stream's point list, without
duplicates. -/
def all_timestamps (data : List (String × List (ℤ × ℚ))) : List ℤ :=
  ((data.map (fun p => p.2.map Prod.fst)).flatten).dedup

/-- The `sorted_timestamps` list of `_build_dataframe` (coordinator.py line
331): the deduplicated timestamps in ascending order. -/
def sorted_timestamps (data : List (String × List (ℤ × ℚ))) : List ℤ :=
  (all_timestamps data).insertionSort (· ≤ ·)

/-- One stream's value series (coordinator.py lines 336-345): the dict
comprehension `{timestamp: value for timestamp, value in points}` keeps the
last value for a duplicated timestamp (`pyDictGet`), and
`value_map.get(ts)` yields `None` for timestamps at which the stream has no
sample. -/
def build_series (ts : List ℤ) (points : List (ℤ × ℚ)) : List (Option ℚ) :=
  ts.map (fun t => pyDictGet points t)

/-- `ClarifyDataCoordinator._build_dataframe` (coordinator.py lines
313-356). -/
def build_dataframe (data : List (String × List (ℤ × ℚ))) : ClarifyDataFrame :=
  { times := sorted_timestamps data
    series := data.map (fun p => (p.1, build_series (sorted_timestamps data) p.2)) }

/-! ## Transmission coordinator (`coordinator.py`) -/

/-- Outcome of the external transport call
`client.async_insert_dataframe` as the coordinator distinguishes it:
success, `ClarifyConnectionError`, or any other exception. -/
inductive SendOutcome
  | success
  | connection_error
  | other_error
deriving DecidableEq, Repr

/-- State of a `ClarifyDataCoordinator` (coordinator.py lines 40-88): the
buffer strategy manager, the legacy `_data_buffer` dict, and the send
statistics. -/
structure CoordinatorState where
  bm : BufferStrategyManagerState
  data_buffer : List (String × List (ℤ × ℚ))
  last_send_time : Option ℤ
  total_data_points_sent : ℕ
  failed_sends : ℕ
  successful_sends : ℕ

/-- The `data_points` count of `_async_send_data` (coordinator.py lines
273-276): non-`None` values across all series. -/
def countDataPoints (df : ClarifyDataFrame) : ℕ :=
  (df.series.map (fun p => (p.2.filter Option.isSome).length)).sum

/-- `ClarifyDataCoordinator._async_send_data` (coordinator.py lines
242-303).  On success the send statistics are updated; on
`ClarifyConnectionError` the coordinator increments `failed_sends` and puts
the batch back into its *own* legacy `_data_buffer`
(`self._data_buffer[input_id].extend(points)`); on any other exception it
only increments `failed_sends` (the batch is dropped).  No branch invokes
the retry manager. -/
def send_data (c : CoordinatorState) (data : List (String × List (ℤ × ℚ)))
    (outcome : SendOutcome) (now : ℤ) : CoordinatorState :=
  let df := build_dataframe data
  if df.times.isEmpty then c
  else
    match outcome with
    | .success =>
      { c with
        last_send_time := some now
        total_data_points_sent := c.total_data_points_sent + countDataPoints df
        successful_sends := c.successful_sends + 1 }
    | .connection_error =>
      { c with
        failed_sends := c.failed_sends + 1
        data_buffer := data.foldl (fun buf p => pyDictExtend buf p.1 p.2) c.data_buffer }
    | .other_error =>
      { c with failed_sends := c.failed_sends + 1 }

/-- Python attribute access on the loop variable of
`for entry in buffer_data:` (coordinator.py lines 226-227): iterating a
dict yields its *keys* — here the strings `"high"`, `"medium"`, `"low"` —
and `str` has no attribute `input_id`, so the body's `entry.input_id`
raises `AttributeError`. -/
def strEntryFields (_key : String) : Except String (String × ℤ × ℚ) :=
  .error "AttributeError: str object has no attribute input_id"

/-- The `data_to_send` conversion loop of `_async_flush_buffer`
(coordinator.py lines 224-227), as written in the source: it folds over the
keys of the `buffer_data` dict and reads `entry.input_id`,
`entry.timestamp` and `entry.value` off each key — which raises
`AttributeError` on the first key, since the keys are strings. -/
def buildDataToSend (buffer_data : List (String × List BufferEntry)) :
    Except String (List (String × List (ℤ × ℚ))) :=
  buffer_data.foldlM
    (fun acc kv => do
      let f ← strEntryFields kv.1
      pure (pyDictExtend acc f.1 [(f.2.1, f.2.2)]))
    []

/-- `ClarifyDataCoordinator._async_flush_buffer` (coordinator.py lines
203-240) followed by `_async_send_data`.  Returns the resulting coordinator
state together with the exception raised, if any: a Python exception
escaping the method leaves the already-performed mutations (the drained
buffer manager) in place. -/
def flush_buffer (c : CoordinatorState) (trigger : FlushTrigger) (now : ℤ)
    (outcome : SendOutcome) : CoordinatorState × Option String :=
  let gf := get_flush_data c.bm trigger now
  let buffer_data := gf.1
  let c := { c with bm := gf.2 }
  if buffer_data.isEmpty then (c, none)
  else
    match buildDataToSend buffer_data with
    | .error e => (c, some e)
    | .ok dts =>
      let dts := c.data_buffer.foldl (fun acc p => pyDictExtend acc p.1 p.2) dts
      let c := { c with data_buffer := [] }
      if dts.isEmpty then (c, none)
      else (send_data c dts outcome now, none)

/-- The integration-level system state relevant to claim C1: the coordinator
together with a retry manager.  `ClarifyDataCoordinator` holds no reference
to `ExponentialBackoffRetryManager` — the retry module is never
instantiated or invoked anywhere in the integration — so a batch send is a
function of the coordinator component alone. -/
structure PipelineState (α : Type) where
  coordinator : CoordinatorState
  retry_manager : RetryManagerState α

/-- A batch transmission at integration level: `_async_send_data` runs on
the coordinator; no code path reaches the retry manager. -/
def pipeline_send_data {α : Type} (p : PipelineState α)
    (data : List (String × List (ℤ × ℚ))) (outcome : SendOutcome) (now : ℤ) :
    PipelineState α :=
  { p with coordinator := send_data p.coordinator data outcome now }

/-! ## Data validator (`data_validator.py`) -/

/-- A Python float value: a finite number (modelled exactly as a rational)
or one of the special values `nan`, `inf`, `-inf`. -/
inductive PyFloat
  | finite (q : ℚ)
  | nan
  | inf
  | ninf
deriving DecidableEq, Repr

/-- A Python runtime value as `validate_and_convert` can receive it.  The
`list` constructor stands for any unhashable container (list/dict/set):
the validator never inspects such a value's contents — the membership test
`value in INVALID_STATES` raises `TypeError` before any element access —
so the contents are not modelled. -/
inductive PyValue
  | none
  | str (s : String)
  | int (n : ℤ)
  | float (x : PyFloat)
  | bool (b : Bool)
  | list
deriving DecidableEq, Repr

/-- `ValidationResult` enum (data_validator.py lines 28-37). -/
inductive ValidationResult
  | valid
  | invalid_state
  | invalid_type
  | invalid_range
  | stale
  | unchanged
  | duplicate
deriving DecidableEq, Repr

/-- `ValidatedData` dataclass (data_validator.py lines 40-50).  The
diagnostic-only fields `unit` (read off the full `State` object, which no
claim involves) and `reason` (an interpolated human-readable message) are
not modelled. -/
structure ValidatedData where
  result : ValidationResult
  value : Option PyFloat := Option.none
  original_value : PyValue := .none
  converted : Bool := false
  timestamp : Option ℤ := Option.none

/-- The `validation_stats` counters (data_validator.py lines 130-140). -/
structure ValidationStats where
  total : ℕ
  valid : ℕ
  converted : ℕ
  invalid_state : ℕ
  invalid_type : ℕ
  invalid_range : ℕ
  stale : ℕ
  unchanged : ℕ

/-- The all-zero counters a fresh validator starts with. -/
def ValidationStats.init : ValidationStats := ⟨0, 0, 0, 0, 0, 0, 0, 0⟩

/-- State of a `DataValidator` (data_validator.py lines 109-140):
configuration, the per-entity last-accepted-value map, and the running
counters.  `stale_threshold` is the threshold in seconds, when
configured. -/
structure DataValidatorState where
  stale_threshold : Option ℤ
  validate_ranges : Bool
  track_changes_only : Bool
  last_values : List (String × ℚ × ℤ)
  validation_stats : ValidationStats

/-- A freshly initialised `DataValidator` with the source's default keyword
arguments (data_validator.py lines 109-128). -/
def DataValidatorState.init (stale_threshold : Option ℤ := Option.none)
    (validate_ranges : Bool := true) (track_changes_only : Bool := false) :
    DataValidatorState :=
  ⟨stale_threshold, validate_ranges, track_changes_only, [], ValidationStats.init⟩

/-- Membership test `value in DataValidator.INVALID_STATES`
(data_validator.py lines 86 and 169), where
`INVALID_STATES = {STATE_UNAVAILABLE, STATE_UNKNOWN, None, "", "None",
"none"}` is a Python `set`: testing an unhashable value (a list, dict or
set) against a set raises `TypeError: unhashable type`; `None` and the five
strings are members; numbers and booleans equal no member. -/
def in_INVALID_STATES : PyValue → Except String Bool
  | .list => .error "TypeError: unhashable type: list"
  | .none => .ok true
  | .str s =>
    .ok (s == "unavailable" || s == "unknown" || s == "" || s == "None" ||
      s == "none")
  | _ => .ok false

/-- `DataValidator.BOOLEAN_STATE_MAP` (data_validator.py lines 66-83), as a
lookup on the lower-cased string.  `LockState.LOCKED`/`UNLOCKED` are the
string enum members "locked"/"unlocked". -/
def BOOLEAN_STATE_MAP : String → Option ℚ
  | "on" => some 1
  | "off" => some 0
  | "home" => some 1
  | "not_home" => some 0
  | "open" => some 1
  | "closed" => some 0
  | "locked" => some 1
  | "unlocked" => some 0
  | "true" => some 1
  | "false" => some 0
  | "yes" => some 1
  | "no" => some 0
  | "active" => some 1
  | "inactive" => some 0
  | "detected" => some 1
  | "clear" => some 0
  | _ => Option.none

/-- Decimal digit string to a natural number; `none` when empty or when a
non-digit occurs. -/
def digitsToNat (cs : List Char) : Option ℕ :=
  if cs.isEmpty then Option.none
  else cs.foldl
    (fun acc c =>
      acc.bind (fun a => if c.isDigit then some (a * 10 + (c.toNat - 48)) else Option.none))
    (some 0)

/-- Mantissa of a Python float literal: `digits`, `digits.digits`,
`digits.` or `.digits`. -/
def parseMantissa (m : String) : Option ℚ :=
  match m.splitOn "." with
  | [ip] => (digitsToNat ip.toList).map (fun n => (n : ℚ))
  | [ip, fp] =>
    if ip.isEmpty && fp.isEmpty then Option.none
    else if fp.isEmpty then (digitsToNat ip.toList).map (fun n => (n : ℚ))
    else if ip.isEmpty then
      (digitsToNat fp.toList).map (fun n => (n : ℚ) / 10 ^ fp.length)
    else
      (digitsToNat ip.toList).bind (fun i =>
        (digitsToNat fp.toList).map (fun f =>
          (i : ℚ) + (f : ℚ) / 10 ^ fp.length))
  | _ => Option.none

/-- Optionally signed decimal exponent. -/
def parseExpInt (x : String) : Option ℤ :=
  let sign : ℤ := if x.startsWith "-" then -1 else 1
  let b := if x.startsWith "-" || x.startsWith "+" then x.drop 1 else x
  (digitsToNat b.toList).map (fun n => sign * n)

/-- Core of Python's `float(str)` conversion: strip surrounding whitespace,
lower-case, then an optional sign followed by `inf`/`infinity`/`nan` or a
decimal literal `mantissa[e exponent]`.  (Underscore digit separators and
exotic unicode digits are not modelled; no claim depends on them.  The
resulting value is modelled exactly as a rational rather than as the
nearest binary float.) -/
def pyParseFloat (s : String) : Option PyFloat :=
  let t := s.trim.toLower
  let neg := t.startsWith "-"
  let body := if t.startsWith "-" || t.startsWith "+" then t.drop 1 else t
  if body == "inf" || body == "infinity" then
    some (if neg then .ninf else .inf)
  else if body == "nan" then some .nan
  else
    let signq : ℚ := if neg then -1 else 1
    match body.splitOn "e" with
    | [mant] => (parseMantissa mant).map (fun q => .finite (signq * q))
    | [mant, ex] =>
      (parseMantissa mant).bind (fun q =>
        (parseExpInt ex).map (fun e => .finite (signq * q * 10 ^ e)))
    | _ => Option.none

/-- `DataValidator._convert_to_numeric` (data_validator.py lines 258-290).
Python's `bool` is a subclass of `int`, so `True`/`False` take the first
`isinstance(value, (int, float))` branch (yielding 1.0/0.0 with
`converted = False`); the dedicated `isinstance(value, bool)` branch lower
down in the source is unreachable.  Strings are first looked up (lower-
cased) in the boolean-state lexicon, then parsed as a float; anything else
is unconvertible. -/
def convert_to_numeric : PyValue → Option PyFloat × Bool
  | .int n => (some (.finite (n : ℚ)), false)
  | .float x => (some x, false)
  | .bool b => (some (.finite (if b then 1 else 0)), false)
  | .str s =>
    match BOOLEAN_STATE_MAP s.toLower with
    | some v => (some (.finite v), true)
    | Option.none =>
      match pyParseFloat s with
      | some x => (some x, false)
      | Option.none => (Option.none, false)
  | _ => (Option.none, false)

/-- `DataValidator._is_valid_numeric` (data_validator.py lines 292-301):
not NaN and not infinite. -/
def is_valid_numeric : PyFloat → Bool
  | .finite _ => true
  | _ => false

/-- `DataValidator.NUMERIC_RANGES` (data_validator.py lines 90-107). -/
def NUMERIC_RANGES : String → Option (ℚ × ℚ)
  | "temperature" => some (-100, 200)
  | "humidity" => some (0, 100)
  | "pressure" => some (0, 2000)
  | "battery" => some (0, 100)
  | "brightness" => some (0, 255)
  | "volume_level" => some (0, 1)
  | "pm25" => some (0, 1000)
  | "pm10" => some (0, 1000)
  | "carbon_dioxide" => some (0, 10000)
  | "aqi" => some (0, 500)
  | "illuminance" => some (0, 200000)
  | "power" => some (-50000, 50000)
  | "energy" => some (0, 1000000)
  | "voltage" => some (0, 500)
  | "current" => some (0, 100)
  | "power_factor" => some (-1, 1)
  | _ => Option.none

/-- `DataValidator._is_in_valid_range` (data_validator.py lines 303-317):
inside the class's range table, or unconstrained when the device class has
no entry. -/
def is_in_valid_range (v : ℚ) (device_class : String) : Bool :=
  match NUMERIC_RANGES device_class with
  | Option.none => true
  | some mnmx => decide (mnmx.1 ≤ v ∧ v ≤ mnmx.2)

/-- Python dict assignment `d[k] = v`: overwrite an existing key or append
a new one. -/
def pyDictSet {α β : Type} [DecidableEq α] (l : List (α × β)) (k : α)
    (v : β) : List (α × β) :=
  if l.any (fun p => p.1 = k) then
    l.map (fun p => if p.1 = k then (k, v) else p)
  else l ++ [(k, v)]

/-- `DataValidator._has_value_changed` (data_validator.py lines 319-347):
a first observation of the entity always counts as changed (and is
recorded); afterwards the sample counts as changed when the value differs
*or* the timestamp is strictly newer (and the record is updated); only an
equal value with a non-newer timestamp counts as unchanged.  Returns the
flag and the updated last-values map. -/
def has_value_changed (last_values : List (String × ℚ × ℤ))
    (entity_id : String) (v : ℚ) (t : ℤ) : Bool × List (String × ℚ × ℤ) :=
  match pyDictGet last_values entity_id with
  | Option.none => (true, pyDictSet last_values entity_id (v, t))
  | some lv =>
    if v ≠ lv.1 ∨ t > lv.2 then (true, pyDictSet last_values entity_id (v, t))
    else (false, last_values)

/-- Python truthiness of an optional string (`if ... and entity_id:` /
`if ... and device_class:`): present and nonempty. -/
def strTruthy : Option String → Bool
  | some s => !(s == "")
  | Option.none => false

/-- `DataValidator.validate_and_convert` (data_validator.py lines 142-256).
The pipeline, each step short-circuiting: invalid-state sentinel test
(which *raises* `TypeError` for an unhashable value), staleness, numeric
coercion, finiteness, optional range check (skipped for a missing or empty
`device_class`), optional change-only check (skipped for a missing or
empty `entity_id`), else valid.  `now` stands for `dt_util.utcnow()`, used
both as the default timestamp and in the staleness comparison.  Returns the
`ValidatedData` plus the updated validator state, or the raised
exception. -/
def validate_and_convert (V : DataValidatorState) (value : PyValue)
    (entity_id : Option String) (device_class : Option String)
    (timestamp : Option ℤ) (now : ℤ) :
    Except String (ValidatedData × DataValidatorState) :=
  let st0 := { V.validation_stats with total := V.validation_stats.total + 1 }
  let V := { V with validation_stats := st0 }
  let ts : ℤ := timestamp.getD now
  (in_INVALID_STATES value).map (fun isInvalidState =>
    if isInvalidState then
      ({ result := .invalid_state, original_value := value, timestamp := some ts },
       { V with validation_stats :=
          { st0 with invalid_state := st0.invalid_state + 1 } })
    else if (match V.stale_threshold with
        | some th => decide (ts < now - th)
        | Option.none => false) then
      ({ result := .stale, original_value := value, timestamp := some ts },
       { V with validation_stats := { st0 with stale := st0.stale + 1 } })
    else
      match convert_to_numeric value with
      | (Option.none, _) =>
        ({ result := .invalid_type, original_value := value, timestamp := some ts },
         { V with validation_stats :=
            { st0 with invalid_type := st0.invalid_type + 1 } })
      | (some x, converted) =>
        if !is_valid_numeric x then
          ({ result := .invalid_type, value := some x, original_value := value,
             timestamp := some ts },
           { V with validation_stats :=
              { st0 with invalid_type := st0.invalid_type + 1 } })
        else
          match x with
          | .nan =>
            ({ result := .invalid_type, value := some x, original_value := value,
               timestamp := some ts },
             { V with validation_stats :=
                { st0 with invalid_type := st0.invalid_type + 1 } })
          | .inf =>
            ({ result := .invalid_type, value := some x, original_value := value,
               timestamp := some ts },
             { V with validation_stats :=
                { st0 with invalid_type := st0.invalid_type + 1 } })
          | .ninf =>
            ({ result := .invalid_type, value := some x, original_value := value,
               timestamp := some ts },
             { V with validation_stats :=
                { st0 with invalid_type := st0.invalid_type + 1 } })
          | .finite q =>
            if V.validate_ranges && strTruthy device_class &&
                !is_in_valid_range q (device_class.getD "") then
              ({ result := .invalid_range, value := some (.finite q),
                 original_value := value, converted := converted,
                 timestamp := some ts },
               { V with validation_stats :=
                  { st0 with invalid_range := st0.invalid_range + 1 } })
            else if V.track_changes_only && strTruthy entity_id then
              let ch := has_value_changed V.last_values (entity_id.getD "") q ts
              if !ch.1 then
                ({ result := .unchanged, value := some (.finite q),
                   original_value := value, converted := converted,
                   timestamp := some ts },
                 { V with
                   last_values := ch.2
                   validation_stats := { st0 with unchanged := st0.unchanged + 1 } })
              else
                ({ result := .valid, value := some (.finite q),
                   original_value := value, converted := converted,
                   timestamp := some ts },
                 { V with
                   last_values := ch.2
                   validation_stats :=
                    { st0 with
                      valid := st0.valid + 1
                      converted := st0.converted + (if converted then 1 else 0) } })
            else
              ({ result := .valid, value := some (.finite q),
                 original_value := value, converted := converted,
                 timestamp := some ts },
               { V with validation_stats :=
                  { st0 with
                    valid := st0.valid + 1
                    converted := st0.converted + (if converted then 1 else 0) } }))

/-! ## Claim theorems: backoff (C4) -/

/-- Claim C4: for every attempt number `n` and every failure reason,
`calculate_backoff_delay` returns
`min (max_delay) (base_delay * 2^n * multiplier)` with the multiplier 3 for
rate-limit, 1.5 for server-error, 2 for authentication-error and 1
otherwise; for a nonnegative `base_delay` the delay is non-decreasing in the
attempt number, and it never exceeds `max_delay`. -/
theorem calculate_backoff_delay_spec (base_delay max_delay : ℚ) (n : ℕ)
    (reason : RetryReason) (hbase : 0 ≤ base_delay) :
    calculate_backoff_delay base_delay max_delay n reason =
      min max_delay (base_delay * 2 ^ n * specBackoffMultiplier reason) ∧
    calculate_backoff_delay base_delay max_delay n reason ≤
      calculate_backoff_delay base_delay max_delay (n + 1) reason ∧
    calculate_backoff_delay base_delay max_delay n reason ≤ max_delay := by
  have hform : ∀ m : ℕ, calculate_backoff_delay base_delay max_delay m reason =
      min max_delay (base_delay * 2 ^ m * specBackoffMultiplier reason) := by
    intro m
    cases reason <;>
      simp only [calculate_backoff_delay, specBackoffMultiplier, min_comm, mul_one]
  refine ⟨hform n, ?_, ?_⟩
  · rw [hform n, hform (n + 1)]
    have hmult : 0 ≤ specBackoffMultiplier reason := by
      cases reason <;> norm_num [specBackoffMultiplier]
    have hpow : base_delay * 2 ^ n * specBackoffMultiplier reason ≤
        base_delay * 2 ^ (n + 1) * specBackoffMultiplier reason := by
      have h2 : (2 : ℚ) ^ n ≤ 2 ^ (n + 1) :=
        pow_le_pow_right₀ (by norm_num) (Nat.le_succ n)
      have := mul_le_mul_of_nonneg_left h2 hbase
      exact mul_le_mul_of_nonneg_right this hmult
    exact min_le_min le_rfl hpow
  · rw [hform n]; exact min_le_left _ _

/-- Witness for C4 at the specification's own example: `base_delay = 2.0`,
`max_delay = 300.0`, reason rate-limit, attempt 0 gives 6.0 seconds, and the
attempt-1 delay is at least the attempt-0 delay. -/
theorem calculate_backoff_delay_spec_witness :
    calculate_backoff_delay 2 300 0 RetryReason.rate_limit = 6 ∧
    calculate_backoff_delay 2 300 0 RetryReason.rate_limit ≤
      calculate_backoff_delay 2 300 1 RetryReason.rate_limit := by
  obtain ⟨h1, h2, _⟩ :=
    calculate_backoff_delay_spec 2 300 0 RetryReason.rate_limit (by norm_num)
  refine ⟨?_, h2⟩
  rw [h1]; norm_num [specBackoffMultiplier]

/-! ## Claim theorems: retry queue capacity (C6) and admission (C10) -/

/-- Claim C6: for a manager with positive capacity, (a) the retry queue never
grows beyond `max_queue_size`: an `add_retry_entry` call on a queue holding
at most `max_queue_size` entries leaves at most `max_queue_size` entries;
(b) an enqueue against a queue exactly at capacity evicts exactly the oldest
entry (the head of the FIFO) before appending the new one and increments
`abandoned_entries` by exactly 1; (c) an enqueue against a non-full queue
evicts nothing and leaves `abandoned_entries` unchanged. -/
theorem add_retry_entry_capacity_bound {α : Type} (s : RetryManagerState α)
    (now : ℚ) (d : α) (reason : RetryReason) (msg : String)
    (hcap : 0 < s.max_queue_size) :
    (s.retry_queue.length ≤ s.max_queue_size →
      ∃ s', add_retry_entry s now d reason msg = .ok (true, s') ∧
        s'.retry_queue.length ≤ s.max_queue_size) ∧
    (s.retry_queue.length = s.max_queue_size →
      ∃ s', add_retry_entry s now d reason msg = .ok (true, s') ∧
        s'.retry_queue = s.retry_queue.tail ++ [newRetryEntry s now d reason msg] ∧
        s'.retry_queue.length = s.max_queue_size ∧
        s'.stats.abandoned_entries = s.stats.abandoned_entries + 1) ∧
    (s.retry_queue.length < s.max_queue_size →
      ∃ s', add_retry_entry s now d reason msg = .ok (true, s') ∧
        s'.retry_queue = s.retry_queue ++ [newRetryEntry s now d reason msg] ∧
        s'.stats.abandoned_entries = s.stats.abandoned_entries) := by
  obtain ⟨ma, bd, md, mq, q, st⟩ := s
  have hfull : q.length = mq →
      ∃ s', add_retry_entry ⟨ma, bd, md, mq, q, st⟩ now d reason msg = .ok (true, s') ∧
        s'.retry_queue =
          q.tail ++ [newRetryEntry ⟨ma, bd, md, mq, q, st⟩ now d reason msg] ∧
        s'.retry_queue.length = mq ∧
        s'.stats.abandoned_entries = st.abandoned_entries + 1 := by
    intro hlen
    cases q with
    | nil => exact absurd (hlen ▸ hcap) (by simp)
    | cons e rest =>
      simp only [add_retry_entry, ge_iff_le]
      rw [if_pos (le_of_eq hlen.symm)]
      refine ⟨_, rfl, rfl, ?_, rfl⟩
      simp only [List.length_cons] at hlen
      simp [← hlen]
  have hnotfull : q.length < mq →
      ∃ s', add_retry_entry ⟨ma, bd, md, mq, q, st⟩ now d reason msg = .ok (true, s') ∧
        s'.retry_queue =
          q ++ [newRetryEntry ⟨ma, bd, md, mq, q, st⟩ now d reason msg] ∧
        s'.stats.abandoned_entries = st.abandoned_entries := by
    intro hlt
    simp only [add_retry_entry, ge_iff_le]
    rw [if_neg (by omega)]
    exact ⟨_, rfl, rfl, rfl⟩
  refine ⟨?_, hfull, hnotfull⟩
  intro hle
  dsimp only at hle
  rcases lt_or_eq_of_le hle with hlt | heq
  · obtain ⟨s', h1, h2, _⟩ := hnotfull hlt
    refine ⟨s', h1, ?_⟩
    show s'.retry_queue.length ≤ mq
    rw [h2]
    simp only [List.length_append, List.length_cons, List.length_nil]
    omega
  · obtain ⟨s', h1, _, h3, _⟩ := hfull heq
    exact ⟨s', h1, le_of_eq h3⟩

/-- Witness for C6: a manager of capacity 1 whose queue holds one entry is
exactly at capacity; enqueueing evicts the oldest entry and increments the
abandoned counter. -/
theorem add_retry_entry_capacity_bound_witness :
    (0 < (⟨5, 2, 300, 1, [⟨(7 : ℕ), 0, 5, 0, 2, RetryReason.unknown, "e"⟩],
        RetryStatistics.init⟩ : RetryManagerState ℕ).max_queue_size) ∧
    ((⟨5, 2, 300, 1, [⟨(7 : ℕ), 0, 5, 0, 2, RetryReason.unknown, "e"⟩],
        RetryStatistics.init⟩ : RetryManagerState ℕ).retry_queue.length =
      (⟨5, 2, 300, 1, [⟨(7 : ℕ), 0, 5, 0, 2, RetryReason.unknown, "e"⟩],
        RetryStatistics.init⟩ : RetryManagerState ℕ).max_queue_size →
      ∃ s', add_retry_entry (⟨5, 2, 300, 1,
          [⟨(7 : ℕ), 0, 5, 0, 2, RetryReason.unknown, "e"⟩],
          RetryStatistics.init⟩ : RetryManagerState ℕ) 0 9
          RetryReason.rate_limit "m" = .ok (true, s') ∧
        s'.retry_queue =
          (⟨5, 2, 300, 1, [⟨(7 : ℕ), 0, 5, 0, 2, RetryReason.unknown, "e"⟩],
            RetryStatistics.init⟩ : RetryManagerState ℕ).retry_queue.tail ++
          [newRetryEntry (⟨5, 2, 300, 1,
            [⟨(7 : ℕ), 0, 5, 0, 2, RetryReason.unknown, "e"⟩],
            RetryStatistics.init⟩ : RetryManagerState ℕ) 0 9
            RetryReason.rate_limit "m"] ∧
        s'.retry_queue.length =
          (⟨5, 2, 300, 1, [⟨(7 : ℕ), 0, 5, 0, 2, RetryReason.unknown, "e"⟩],
            RetryStatistics.init⟩ : RetryManagerState ℕ).max_queue_size ∧
        s'.stats.abandoned_entries =
          (⟨5, 2, 300, 1, [⟨(7 : ℕ), 0, 5, 0, 2, RetryReason.unknown, "e"⟩],
            RetryStatistics.init⟩ : RetryManagerState ℕ).stats.abandoned_entries + 1) :=
  ⟨by decide,
   (add_retry_entry_capacity_bound _ 0 9 RetryReason.rate_limit "m" (by decide)).2.1⟩

/-- Claim C10 counterexample: with `max_queue_size = 0` and an empty queue —
a queue "already at `max_queue_size`" — `add_retry_entry` does not return
`True`: the eviction branch calls `popleft` on an empty deque, which raises
`IndexError`. -/
theorem add_retry_entry_raises_at_zero_capacity :
    add_retry_entry (RetryManagerState.init ℕ 5 2 300 0) 0 (0 : ℕ)
      RetryReason.network_error "err" =
      .error "IndexError: pop from an empty deque" := by
  rfl

/-- Claim C10 (amended): whenever the retry queue is nonempty or is strictly
below `max_queue_size` — in particular in every state of a manager with
positive capacity — `add_retry_entry` returns `True`; admission is never
refused, because a full queue evicts its oldest entry to make room.  (In the
sole remaining corner, `max_queue_size = 0` with an empty queue, the call
raises `IndexError` instead of returning; it never returns `False`.) -/
theorem add_retry_entry_always_accepts {α : Type} (s : RetryManagerState α)
    (now : ℚ) (d : α) (reason : RetryReason) (msg : String)
    (h : s.retry_queue ≠ [] ∨ s.retry_queue.length < s.max_queue_size) :
    ∃ s', add_retry_entry s now d reason msg = .ok (true, s') := by
  obtain ⟨ma, bd, md, mq, q, st⟩ := s
  by_cases hfull : q.length ≥ mq
  · cases q with
    | nil =>
      rcases h with h | h
      · exact absurd rfl h
      · exact absurd h (by simp at hfull ⊢; omega)
    | cons e rest =>
      simp only [add_retry_entry, ge_iff_le]
      rw [if_pos hfull]
      exact ⟨_, rfl⟩
  · simp only [add_retry_entry, ge_iff_le]
    rw [if_neg hfull]
    exact ⟨_, rfl⟩

/-- Witness for C10 (amended): a fresh manager with the default capacity
1000 accepts an entry. -/
theorem add_retry_entry_always_accepts_witness :
    ((RetryManagerState.init ℕ 5 2 300 1000).retry_queue ≠ [] ∨
      (RetryManagerState.init ℕ 5 2 300 1000).retry_queue.length <
        (RetryManagerState.init ℕ 5 2 300 1000).max_queue_size) ∧
    ∃ s', add_retry_entry (RetryManagerState.init ℕ 5 2 300 1000) 0 (3 : ℕ)
        RetryReason.timeout "t" = .ok (true, s') :=
  ⟨Or.inr (by decide),
   add_retry_entry_always_accepts _ 0 3 RetryReason.timeout "t" (Or.inr (by decide))⟩

/-! ## Claim theorem: retry abandonment (C5) -/

/-- Helper: one `process_retry_queue` pass over a queue holding exactly one
ready entry, with a send callback that fails.  The entry is either requeued
with an incremented attempt counter and a recomputed `next_retry_time`, or
(once `attempt` reaches `max_attempts`) dropped and counted as failed and
abandoned. -/
theorem process_retry_queue_single_ready {α : Type} (ma : ℕ) (bd md : ℚ)
    (mq : ℕ) (st : RetryStatistics) (e : RetryEntry α) (now : ℚ)
    (hready : e.next_retry_time ≤ now) :
    process_retry_queue (⟨ma, bd, md, mq, [e], st⟩ : RetryManagerState α) now
        (fun _ => false) =
      if e.attempt + 1 < e.max_attempts then
        (⟨ma, bd, md, mq,
          [{ e with
             attempt := e.attempt + 1
             next_retry_time := now + calculate_backoff_delay bd md (e.attempt + 1) e.reason
             last_attempt_time := now }],
          { st with current_queue_size := 1 }⟩, ⟨1, 0, 0, 1⟩)
      else
        (⟨ma, bd, md, mq, [],
          { st with
            failed_retries := st.failed_retries + 1
            abandoned_entries := st.abandoned_entries + 1
            current_queue_size := 0 }⟩, ⟨1, 0, 1, 0⟩) := by
  by_cases h : e.attempt + 1 < e.max_attempts <;>
    simp [process_retry_queue, processEntry, hready, h]

/-- Claim C5: with `max_attempts = 3`, an entry whose send callback fails on
every invocation of `process_retry_queue` is sent exactly 3 times (each
invocation processes it once, and `processed` counts exactly the send
attempts), after which it is removed from the queue, `failed_retries` and
`abandoned_entries` are each incremented once, and the abandonment is
surfaced only through these metrics: `process_retry_queue` returns its
result dictionary normally (the embedding is a total function — the source
catches every callback exception and never raises on abandonment). -/
theorem process_retry_queue_abandons_after_max_attempts {α : Type} (d : α) :
    ∃ s1, add_retry_entry (RetryManagerState.init α 3 2 300 1000) 0 d
        RetryReason.network_error "send failed" = .ok (true, s1) ∧
      (let step2 := process_retry_queue s1 2 (fun _ => false)
       let step3 := process_retry_queue step2.1 6 (fun _ => false)
       let step4 := process_retry_queue step3.1 14 (fun _ => false)
       step2.2.processed = 1 ∧ step3.2.processed = 1 ∧ step4.2.processed = 1 ∧
       step2.2.requeued = 1 ∧ step3.2.requeued = 1 ∧
       step4.2.requeued = 0 ∧ step4.2.failed = 1 ∧
       step4.1.retry_queue = [] ∧
       step4.1.stats.failed_retries = 1 ∧
       step4.1.stats.abandoned_entries = 1 ∧
       step4.1.stats.successful_retries = 0) := by
  have hadd : add_retry_entry (RetryManagerState.init α 3 2 300 1000) 0 d
      RetryReason.network_error "send failed" =
      .ok (true, (⟨3, 2, 300, 1000,
        [⟨d, 0, 3, 0, 2, RetryReason.network_error, "send failed"⟩],
        ⟨1, 0, 0, 0,
          fun r => if r = RetryReason.network_error then 1 else 0, 1, 1⟩⟩ :
        RetryManagerState α)) := by
    simp [add_retry_entry, RetryManagerState.init, RetryStatistics.init,
      newRetryEntry, calculate_backoff_delay, Except.map]
    norm_num
  refine ⟨_, hadd, ?_⟩
  norm_num [process_retry_queue_single_ready, calculate_backoff_delay]

/-! ## Claim theorems: failed sends and the retry engine (C1) -/

/-- Claim C1 concerns a code bug: when a batch transmission fails with
`ClarifyConnectionError`, `_async_send_data` does *not* hand the batch to
the Retry Engine — `ExponentialBackoffRetryManager` is dead code, never
instantiated or called by the coordinator (or anywhere else in the
integration).  Instead the coordinator increments `failed_sends` and puts
the failed points back into its own legacy `_data_buffer`, from which the
coordinator itself (not the Retry Engine) would re-send them on a later
flush.  Concretely: after a failed send of one point, the retry manager is
bit-for-bit unchanged with an empty queue and zero enqueues, while the
coordinator's own buffer holds the batch. -/
theorem send_failure_not_handed_to_retry_engine :
    (let bm0 := BufferStrategyManagerState.init .hybrid 300 100 0
     let c0 : CoordinatorState := ⟨bm0, [], none, 0, 0, 0⟩
     let p0 : PipelineState ℕ := ⟨c0, RetryManagerState.init ℕ 5 2 300 1000⟩
     let p1 := pipeline_send_data p0 [("sensor.a", [((0 : ℤ), (21 : ℚ))])]
       .connection_error 5
     p1.retry_manager = p0.retry_manager ∧
     p1.retry_manager.retry_queue = [] ∧
     p1.retry_manager.stats.total_retries = 0 ∧
     p1.coordinator.failed_sends = 1 ∧
     p1.coordinator.data_buffer = [("sensor.a", [((0 : ℤ), (21 : ℚ))])]) :=
  ⟨rfl, rfl, rfl, rfl, rfl⟩

/-! ## Claim theorems: flush ownership transfer (C2) -/

/-- Claim C2 concerns a code bug: `get_flush_data` does drain the strategy
buffers atomically, but the coordinator's conversion loop
`for entry in buffer_data:` iterates the *keys* of the returned dict (the
strings `"high"`/`"medium"`/`"low"`), so `entry.input_id` raises
`AttributeError` on every flush that drains at least one entry.  The
drained entries therefore never reach batch assembly and are lost: after
flushing a coordinator holding one buffered entry, the exception is raised,
all strategy buffers are empty, nothing was sent, and the legacy buffer
gained nothing. -/
theorem flush_loses_drained_entries :
    (let e : BufferEntry := ⟨"sensor.a", 21, 0, .low, none, none⟩
     let bm0 := { BufferStrategyManagerState.init .hybrid 300 100 0 with
                  low_priority_buffer := [e] }
     let c0 : CoordinatorState := ⟨bm0, [], none, 0, 0, 0⟩
     let r := flush_buffer c0 .manual 5 .success
     r.2 = some "AttributeError: str object has no attribute input_id" ∧
     r.1.bm.high_priority_buffer = [] ∧
     r.1.bm.medium_priority_buffer = [] ∧
     r.1.bm.low_priority_buffer = [] ∧
     r.1.successful_sends = 0 ∧
     r.1.total_data_points_sent = 0 ∧
     r.1.data_buffer = []) :=
  ⟨rfl, rfl, rfl, rfl, rfl, rfl, rfl⟩

/-! ## Claim theorems: adaptive interval (C9) -/

/-- Truncation toward zero sends integers to themselves. -/
theorem pyInt_intCast (n : ℤ) : pyInt (n : ℚ) = n := by
  unfold pyInt
  split
  · exact Int.floor_intCast n
  · exact Int.ceil_intCast n

/-- Truncation toward zero is monotone. -/
theorem pyInt_mono {p q : ℚ} (h : p ≤ q) : pyInt p ≤ pyInt q := by
  unfold pyInt
  split <;> split
  · exact Int.floor_le_floor h
  · next hp hq => exact absurd (le_trans hp h) hq
  · next hp hq =>
    have hceil : ⌈p⌉ ≤ (0 : ℤ) :=
      Int.ceil_le.mpr (by exact_mod_cast le_of_lt (lt_of_not_ge hp))
    exact le_trans hceil (Int.floor_nonneg.mpr hq)
  · exact Int.ceil_le_ceil h

/-- An integer below a rational is below its truncation toward zero. -/
theorem le_pyInt_of_cast_le {n : ℤ} {q : ℚ} (h : (n : ℚ) ≤ q) : n ≤ pyInt q := by
  have := pyInt_mono h
  rwa [pyInt_intCast] at this

/-- A rational below an integer truncates toward zero to at most it. -/
theorem pyInt_le_of_le_cast {n : ℤ} {q : ℚ} (h : q ≤ (n : ℚ)) : pyInt q ≤ n := by
  have := pyInt_mono h
  rwa [pyInt_intCast] at this

/-- The adaptive effective interval always lies between the configured
minimum and maximum intervals (for any rate at all). -/
theorem adaptive_effective_interval_mem (mn mx : ℤ) (h : mn ≤ mx) (r : ℚ) :
    mn ≤ adaptive_effective_interval mn mx r ∧
      adaptive_effective_interval mn mx r ≤ mx := by
  unfold adaptive_effective_interval
  split
  · exact ⟨le_rfl, h⟩
  · split
    · exact ⟨h, le_rfl⟩
    · next h1 h2 =>
      have hr1 : r ≤ 1 := le_of_not_lt h1
      have hr2 : (1 : ℚ) / 10 ≤ r := le_of_not_lt h2
      have hR : (0 : ℚ) ≤ (mx : ℚ) - (mn : ℚ) := by
        have hc : (mn : ℚ) ≤ (mx : ℚ) := by exact_mod_cast h
        linarith
      have hf0 : 0 ≤ (r - 1 / 10) / (9 / 10) :=
        div_nonneg (by linarith) (by norm_num)
      have hf1 : (r - 1 / 10) / (9 / 10) ≤ 1 := by
        rw [div_le_one (by norm_num)]
        linarith
      have hfR : (r - 1 / 10) / (9 / 10) * ((mx : ℚ) - (mn : ℚ)) ≤
          (mx : ℚ) - (mn : ℚ) := mul_le_of_le_one_left hR hf1
      have hfR0 : 0 ≤ (r - 1 / 10) / (9 / 10) * ((mx : ℚ) - (mn : ℚ)) :=
        mul_nonneg hf0 hR
      constructor
      · apply le_pyInt_of_cast_le
        push_cast
        linarith
      · apply pyInt_le_of_le_cast
        push_cast
        linarith

/-- The adaptive effective interval is non-increasing in the arrival
rate. -/
theorem adaptive_effective_interval_antitone (mn mx : ℤ) (h : mn ≤ mx)
    {r1 r2 : ℚ} (hr : r1 ≤ r2) :
    adaptive_effective_interval mn mx r2 ≤ adaptive_effective_interval mn mx r1 := by
  by_cases hgt2 : r2 > 1
  · have : adaptive_effective_interval mn mx r2 = mn := by
      unfold adaptive_effective_interval
      rw [if_pos hgt2]
    rw [this]
    exact (adaptive_effective_interval_mem mn mx h r1).1
  · by_cases hlt2 : r2 < 1 / 10
    · have hlt1 : r1 < 1 / 10 := lt_of_le_of_lt hr hlt2
      have hgt1 : ¬ r1 > 1 := by
        intro hc
        exact hgt2 (lt_of_lt_of_le hc hr)
      unfold adaptive_effective_interval
      rw [if_neg hgt2, if_pos hlt2, if_neg hgt1, if_pos hlt1]
    · have hgt1 : ¬ r1 > 1 := by
        intro hc
        exact hgt2 (lt_of_lt_of_le hc hr)
      by_cases hlt1 : r1 < 1 / 10
      · have : adaptive_effective_interval mn mx r1 = mx := by
          unfold adaptive_effective_interval
          rw [if_neg hgt1, if_pos hlt1]
        rw [this]
        exact (adaptive_effective_interval_mem mn mx h r2).2
      · unfold adaptive_effective_interval
        rw [if_neg hgt2, if_neg hlt2, if_neg hgt1, if_neg hlt1]
        apply pyInt_mono
        have hR : (0 : ℚ) ≤ (mx : ℚ) - (mn : ℚ) := by
          have hc : (mn : ℚ) ≤ (mx : ℚ) := by exact_mod_cast h
          linarith
        have hf : (r1 - 1 / 10) / (9 / 10) ≤ (r2 - 1 / 10) / (9 / 10) :=
          (div_le_div_iff_of_pos_right (by norm_num)).mpr (by linarith)
        have := mul_le_mul_of_nonneg_right hf hR
        push_cast
        linarith

/-- Claim C9: for the Adaptive policy with
`adaptive_min_interval ≤ adaptive_max_interval`, the effective interval
computed from any arrival rate `r > 0` lies within
`[adaptive_min_interval, adaptive_max_interval]` (rates above 1.0 give the
minimum, rates below 0.1 the maximum, linear interpolation in between), and
the effective interval is non-increasing as the rate increases. -/
theorem adaptive_interval_bounds (mn mx : ℤ) (hle : mn ≤ mx) (r : ℚ)
    (_hr : 0 < r) :
    mn ≤ adaptive_effective_interval mn mx r ∧
    adaptive_effective_interval mn mx r ≤ mx ∧
    ∀ r2 : ℚ, r ≤ r2 →
      adaptive_effective_interval mn mx r2 ≤ adaptive_effective_interval mn mx r :=
  ⟨(adaptive_effective_interval_mem mn mx hle r).1,
   (adaptive_effective_interval_mem mn mx hle r).2,
   fun _ h2 => adaptive_effective_interval_antitone mn mx hle h2⟩

/-- Witness for C9 at the default configuration (min 60 s, max 600 s) and
the mid-range rate 0.5/sec, which interpolates to 360 s. -/
theorem adaptive_interval_bounds_witness :
    ((60 : ℤ) ≤ 600 ∧ (0 : ℚ) < 1 / 2) ∧
    (60 ≤ adaptive_effective_interval 60 600 (1 / 2) ∧
     adaptive_effective_interval 60 600 (1 / 2) ≤ 600 ∧
     ∀ r2 : ℚ, 1 / 2 ≤ r2 →
       adaptive_effective_interval 60 600 r2 ≤
         adaptive_effective_interval 60 600 (1 / 2)) ∧
    adaptive_effective_interval 60 600 (1 / 2) = 360 :=
  ⟨⟨by norm_num, by norm_num⟩,
   adaptive_interval_bounds 60 600 (by norm_num) (1 / 2) (by norm_num),
   by norm_num [adaptive_effective_interval, pyInt]⟩

/-! ## Claim theorems: batch assembly (C3) -/

/-- `pyDictGet` misses exactly the keys that are absent. -/
theorem pyDictGet_eq_none_iff {α β : Type} [DecidableEq α]
    (l : List (α × β)) (k : α) :
    pyDictGet l k = none ↔ k ∉ l.map Prod.fst := by
  induction l with
  | nil => simp [pyDictGet]
  | cons p rest ih =>
    cases hrec : pyDictGet rest k with
    | some w =>
      have hk : k ∈ rest.map Prod.fst := by
        by_contra hk
        rw [← ih] at hk
        rw [hrec] at hk
        exact Option.noConfusion hk
      simp [pyDictGet, hrec, hk]
    | none =>
      rw [hrec] at ih
      by_cases hpk : p.1 = k
      · simp [pyDictGet, hrec, hpk]
      · simp only [pyDictGet, hrec, if_neg hpk, List.map_cons, List.mem_cons]
        constructor
        · intro _ hmem
          rcases hmem with hmem | hmem
          · exact hpk hmem.symm
          · exact (ih.mp rfl) hmem
        · intro _
          trivial

/-- With pairwise-distinct keys, `pyDictGet` returns exactly the value
paired with the key. -/
theorem pyDictGet_eq_some_iff {α β : Type} [DecidableEq α]
    {l : List (α × β)} (hnd : (l.map Prod.fst).Nodup) :
    ∀ (k : α) (v : β), pyDictGet l k = some v ↔ (k, v) ∈ l := by
  induction l with
  | nil => intro k v; simp [pyDictGet]
  | cons p rest ih =>
    intro k v
    rw [List.map_cons, List.nodup_cons] at hnd
    have ih' := ih hnd.2
    cases hrec : pyDictGet rest k with
    | some w =>
      have hw : (k, w) ∈ rest := (ih' k w).mp hrec
      have hkmem : k ∈ rest.map Prod.fst :=
        List.mem_map.mpr ⟨(k, w), hw, rfl⟩
      simp only [pyDictGet, hrec, List.mem_cons]
      constructor
      · intro hsome
        have : w = v := by
          injection hsome
        exact Or.inr (this ▸ hw)
      · intro hmem
        rcases hmem with hmem | hmem
        · exfalso
          have : p.1 = k := by
            have := congrArg Prod.fst hmem
            exact this.symm
          exact hnd.1 (this ▸ hkmem)
        · have : pyDictGet rest k = some v := (ih' k v).mpr hmem
          rw [hrec] at this
          exact this
    | none =>
      have hknot : (k, v) ∈ rest → False := by
        intro hmem
        have : pyDictGet rest k = some v := (ih' k v).mpr hmem
        rw [hrec] at this
        exact Option.noConfusion this
      by_cases hpk : p.1 = k
      · simp only [pyDictGet, hrec, if_pos hpk, List.mem_cons]
        constructor
        · intro hsome
          have hv : p.2 = v := by
            injection hsome
          left
          rw [← hpk, ← hv]
        · intro hmem
          rcases hmem with hmem | hmem
          · have h1 := congrArg Prod.snd hmem
            simp only at h1
            rw [h1]
          · exact absurd hmem hknot
      · simp only [pyDictGet, hrec, if_neg hpk, List.mem_cons]
        constructor
        · intro hsome
          exact Option.noConfusion hsome
        · intro hmem
          rcases hmem with hmem | hmem
          · exact absurd (congrArg Prod.fst hmem).symm hpk
          · exact absurd hmem hknot

/-- The sorted timestamp list of a batch is strictly increasing. -/
theorem sorted_timestamps_sorted_lt (data : List (String × List (ℤ × ℚ))) :
    (sorted_timestamps data).Sorted (· < ·) := by
  have hle : (sorted_timestamps data).Sorted (· ≤ ·) :=
    List.sorted_insertionSort _ _
  have hnd : (sorted_timestamps data).Nodup :=
    ((List.perm_insertionSort _ _).nodup_iff).mpr (List.nodup_dedup _)
  exact hle.lt_of_le hnd

/-- A timestamp occurs in the sorted timestamp list exactly when some
stream of the batch has a sample at it. -/
theorem mem_sorted_timestamps (data : List (String × List (ℤ × ℚ))) (t : ℤ) :
    t ∈ sorted_timestamps data ↔ ∃ p ∈ data, t ∈ p.2.map Prod.fst := by
  unfold sorted_timestamps all_timestamps
  rw [List.mem_insertionSort, List.mem_dedup, List.mem_flatten]
  constructor
  · rintro ⟨l, hl, htl⟩
    rw [List.mem_map] at hl
    obtain ⟨p, hp, rfl⟩ := hl
    exact ⟨p, hp, htl⟩
  · rintro ⟨p, hp, htp⟩
    exact ⟨p.2.map Prod.fst, List.mem_map.mpr ⟨p, hp, rfl⟩, htp⟩

/-- Claim C3: for every batch (with each stream listed once, and no stream
carrying two samples at the same timestamp), `_build_dataframe` produces a
`times` list that is the strictly increasing, deduplicated union of all
timestamps across all streams, and for every stream a series whose length
equals `len(times)` and whose `i`-th element is `some v` exactly when the
stream has the sample `(times[i], v)`, and `None` exactly when the stream
has no sample at `times[i]`. -/
theorem build_dataframe_spec (data : List (String × List (ℤ × ℚ)))
    (hkeys : (data.map Prod.fst).Nodup)
    (hpts : ∀ p ∈ data, (p.2.map Prod.fst).Nodup) :
    (build_dataframe data).times.Sorted (· < ·) ∧
    (∀ t : ℤ, t ∈ (build_dataframe data).times ↔
      ∃ p ∈ data, t ∈ p.2.map Prod.fst) ∧
    ∀ p ∈ data,
      ∃ s, pyDictGet (build_dataframe data).series p.1 = some s ∧
        s.length = (build_dataframe data).times.length ∧
        ∀ (i : ℕ) (t : ℤ), (build_dataframe data).times[i]? = some t →
          (∀ v : ℚ, s[i]? = some (some v) ↔ (t, v) ∈ p.2) ∧
          (s[i]? = some none ↔ t ∉ p.2.map Prod.fst) := by
  refine ⟨sorted_timestamps_sorted_lt data, mem_sorted_timestamps data, ?_⟩
  intro p hp
  have hserieskeys : ((build_dataframe data).series.map Prod.fst).Nodup := by
    simpa [build_dataframe, List.map_map, Function.comp] using hkeys
  have hmem : (p.1, build_series (sorted_timestamps data) p.2) ∈
      (build_dataframe data).series := by
    simp only [build_dataframe]
    exact List.mem_map.mpr ⟨p, hp, rfl⟩
  refine ⟨build_series (sorted_timestamps data) p.2,
    (pyDictGet_eq_some_iff hserieskeys _ _).mpr hmem, ?_, ?_⟩
  · simp [build_series, build_dataframe]
  · intro i t ht
    have hs : (build_series (sorted_timestamps data) p.2)[i]? =
        some (pyDictGet p.2 t) := by
      rw [build_series, List.getElem?_map]
      simp only [build_dataframe] at ht
      rw [ht]
      rfl
    constructor
    · intro v
      rw [hs]
      simp only [Option.some.injEq]
      exact pyDictGet_eq_some_iff (hpts p hp) t v
    · rw [hs]
      simp only [Option.some.injEq]
      exact pyDictGet_eq_none_iff p.2 t

/-- Witness for C3 at the specification's dense-matrix example: stream `A`
sampled at times 1 and 3, stream `B` at time 2, giving `times = [1, 2, 3]`,
`series[A] = [v₁, None, v₃]` and `series[B] = [None, v₂, None]`. -/
theorem build_dataframe_spec_witness :
    (let data₀ : List (String × List (ℤ × ℚ)) :=
      [("A", [(1, 10), (3, 30)]), ("B", [(2, 20)])]
     ((data₀.map Prod.fst).Nodup ∧ ∀ p ∈ data₀, (p.2.map Prod.fst).Nodup) ∧
     ((build_dataframe data₀).times.Sorted (· < ·) ∧
      (∀ t : ℤ, t ∈ (build_dataframe data₀).times ↔
        ∃ p ∈ data₀, t ∈ p.2.map Prod.fst) ∧
      ∀ p ∈ data₀,
        ∃ s, pyDictGet (build_dataframe data₀).series p.1 = some s ∧
          s.length = (build_dataframe data₀).times.length ∧
          ∀ (i : ℕ) (t : ℤ), (build_dataframe data₀).times[i]? = some t →
            (∀ v : ℚ, s[i]? = some (some v) ↔ (t, v) ∈ p.2) ∧
            (s[i]? = some none ↔ t ∉ p.2.map Prod.fst)) ∧
     (build_dataframe data₀).times = [1, 2, 3] ∧
     pyDictGet (build_dataframe data₀).series "A" =
       some [some 10, none, some 30] ∧
     pyDictGet (build_dataframe data₀).series "B" =
       some [none, some 20, none]) :=
  ⟨⟨by decide, by decide⟩,
   build_dataframe_spec _ (by decide) (by decide),
   by decide, by decide, by decide⟩

/-! ## Claim theorems: validator totality (C7) -/

/-- Claim C7 concerns a code bug: `validate_and_convert` is *not* total.
For any unhashable raw value — for example the empty list `[]`, as a
list-valued entity attribute routed through `validate_attribute` would
supply — the very first step, the membership test
`value in self.INVALID_STATES` against a Python `set`, raises
`TypeError: unhashable type` before any of the six outcomes can be
produced, even though the `InvalidType` outcome exists precisely for
unconvertible inputs. -/
theorem validate_and_convert_raises_on_list :
    validate_and_convert (DataValidatorState.init Option.none true false) .list
      Option.none Option.none Option.none 0 =
      .error "TypeError: unhashable type: list" := rfl

/-! ## Claim theorems: change-only mode (C8) -/

/-- Claim C8 counterexample: with change-only mode enabled and the last
accepted value for `"sensor.a"` being `1.0` at time 0, a repeated sample of
the same coerced value `1.0` with the *newer* timestamp 5 is classified
`Valid`, not `Unchanged` — `_has_value_changed` treats a strictly newer
timestamp as a change even when the value is identical — so the
repeated-value sample does reach the buffer. -/
theorem repeated_value_newer_timestamp_is_valid :
    (let V : DataValidatorState :=
      ⟨Option.none, true, true, [("sensor.a", (1, 0))], ValidationStats.init⟩
     ∃ d V', validate_and_convert V (.float (.finite 1)) (some "sensor.a")
        Option.none (some 5) 5 = .ok (d, V') ∧
      d.result = .valid ∧ d.result ≠ .unchanged) :=
  ⟨_, _, rfl, rfl, by decide⟩

/-- Claim C8 (amended): with change-only mode enabled and a nonempty stream
id already tracked, a sample that reaches the change-detection step (float
input, no staleness threshold, no device class) is classified `Unchanged`
*iff* its coerced value equals the last accepted value **and** its
timestamp is not newer than the last accepted one; otherwise — in
particular for every repeated value carrying a strictly newer timestamp —
it is classified `Valid`. -/
theorem validate_unchanged_iff (V : DataValidatorState) (e : String)
    (v v0 : ℚ) (t t0 : ℤ) (now : ℤ)
    (htrack : V.track_changes_only = true)
    (hstale : V.stale_threshold = Option.none)
    (he : e ≠ "")
    (hlast : pyDictGet V.last_values e = some (v0, t0)) :
    ∃ d V', validate_and_convert V (.float (.finite v)) (some e)
        Option.none (some t) now = .ok (d, V') ∧
      (d.result = .unchanged ↔ v = v0 ∧ t ≤ t0) ∧
      (d.result = .valid ↔ v ≠ v0 ∨ t0 < t) := by
  have hbe : (e == "") = false := by
    simp [he]
  by_cases hch : v ≠ v0 ∨ t > t0
  · simp [validate_and_convert, in_INVALID_STATES, Except.map,
      convert_to_numeric, is_valid_numeric, has_value_changed, strTruthy,
      hstale, htrack, hlast, hbe]
    rw [if_pos hch]
    simp
    constructor
    · rintro rfl
      rcases hch with hc | hc
      · exact absurd rfl hc
      · exact hc
    · rcases hch with hc | hc
      · exact Or.inl hc
      · exact Or.inr hc
  · push_neg at hch
    simp [validate_and_convert, in_INVALID_STATES, Except.map,
      convert_to_numeric, is_valid_numeric, has_value_changed, strTruthy,
      hstale, htrack, hlast, hbe]
    have hcond : ¬(¬v = v0 ∨ t0 < t) := by
      push_neg
      exact ⟨hch.1, hch.2⟩
    rw [if_neg hcond]
    simp
    exact hch

/-- Witness for the amended C8: a validator tracking `"e" ↦ (1.0, 0)` in
change-only mode classifies a repeated `1.0` at the same timestamp 0 by the
proven equivalence. -/
theorem validate_unchanged_iff_witness :
    (let V : DataValidatorState :=
      ⟨Option.none, true, true, [("e", ((1 : ℚ), (0 : ℤ)))], ValidationStats.init⟩
     (V.track_changes_only = true ∧ V.stale_threshold = Option.none ∧
      "e" ≠ "" ∧ pyDictGet V.last_values "e" = some (1, 0)) ∧
     ∃ d V', validate_and_convert V (.float (.finite 1)) (some "e")
        Option.none (some 0) 0 = .ok (d, V') ∧
      (d.result = .unchanged ↔ (1 : ℚ) = 1 ∧ (0 : ℤ) ≤ 0) ∧
      (d.result = .valid ↔ (1 : ℚ) ≠ 1 ∨ (0 : ℤ) < 0)) :=
  ⟨⟨rfl, rfl, by decide, rfl⟩,
   validate_unchanged_iff _ "e" 1 1 0 0 0 rfl rfl (by decide) rfl⟩
